import Mathlib

/-!
Shallow embedding of `src/streamlit_app.py` (Neon + Streamlit employees &
attendance app).  The relational store is modelled as Lean lists of rows;
each SQL statement issued by a button handler becomes a pure function on
those lists.  Timestamps (`TIMESTAMPTZ`) and dates (`DATE`) are modelled as
`Nat`; `NULL`-able columns are `Option` fields.
-/

/-- One row of `app.attendance_log`.  `log_id` is omitted: it is a surrogate
key never consulted by any statement in the app. -/
structure AttendanceRow where
  employee_id : String
  date : Nat
  check_in_time : Option Nat
  check_out_time : Option Nat
  status : Option String
  notes : Option String
deriving DecidableEq

/-- The composite key constrained UNIQUE by `attendance_unique_per_day`. -/
def rowKey (r : AttendanceRow) : String × Nat :=
  (r.employee_id, r.date)

/-- `WHERE employee_id = :eid AND date = CURRENT_DATE` as a row predicate. -/
def isToday (eid : String) (today : Nat) (r : AttendanceRow) : Bool :=
  r.employee_id == eid && r.date == today

/-- The attendance table: a list of rows. -/
abbrev AttendanceDB := List AttendanceRow

/-- The UNIQUE (employee_id, date) constraint of the DDL, as an invariant. -/
def UniquePerDay (db : AttendanceDB) : Prop :=
  (db.map rowKey).Nodup

instance (db : AttendanceDB) : Decidable (UniquePerDay db) :=
  List.nodupDecidable (db.map rowKey)

/-- Lookup of the (employee_id, today) row, as a `SELECT ... LIMIT 1`. -/
def findRecord (db : AttendanceDB) (eid : String) (today : Nat) :
    Option AttendanceRow :=
  db.find? (isToday eid today)

/-- Check In handler SQL: `INSERT INTO app.attendance_log (employee_id, date,
check_in_time, status) VALUES (:eid, CURRENT_DATE, now(), 'Present') ON
CONFLICT (employee_id, date) DO UPDATE SET check_in_time =
COALESCE(app.attendance_log.check_in_time, EXCLUDED.check_in_time)`. -/
def checkIn (db : AttendanceDB) (eid : String) (today now : Nat) :
    AttendanceDB :=
  if db.any (isToday eid today) then
    db.map fun r =>
      if isToday eid today r then
        { r with check_in_time := some (r.check_in_time.getD now) }
      else r
  else
    db ++ [{ employee_id := eid, date := today, check_in_time := some now,
             check_out_time := none, status := some "Present", notes := none }]

/-- Rows hit by the Check Out UPDATE: `WHERE employee_id = :eid AND date =
CURRENT_DATE AND check_out_time IS NULL`. -/
def checkOutHit (eid : String) (today : Nat) (r : AttendanceRow) : Bool :=
  isToday eid today r && r.check_out_time == none

/-- Check Out handler SQL: `UPDATE app.attendance_log SET check_out_time =
now() WHERE employee_id = :eid AND date = CURRENT_DATE AND check_out_time IS
NULL`; returns the new table and the statement rowcount. -/
def checkOut (db : AttendanceDB) (eid : String) (today now : Nat) :
    AttendanceDB × Nat :=
  (db.map fun r =>
      if checkOutHit eid today r then { r with check_out_time := some now }
      else r,
   db.countP (checkOutHit eid today))

/-- A row inserted by `INSERT INTO app.attendance_log (employee_id, date)
VALUES (:eid, CURRENT_DATE)`: every other column defaults to NULL. -/
def blankRow (eid : String) (today : Nat) : AttendanceRow :=
  { employee_id := eid, date := today, check_in_time := none,
    check_out_time := none, status := none, notes := none }

/-- First statement of the Set Status/Note handler: `INSERT INTO
app.attendance_log (employee_id, date) VALUES (:eid, CURRENT_DATE) ON
CONFLICT (employee_id, date) DO NOTHING`. -/
def ensureToday (db : AttendanceDB) (eid : String) (today : Nat) :
    AttendanceDB :=
  if db.any (isToday eid today) then db else db ++ [blankRow eid today]

/-- The bound value `status_note or None` (Python: the empty string is falsy
and becomes NULL). -/
def setStatusVal (note : String) : Option String :=
  if note = "" then none else some note

/-- Second statement of the Set Status/Note handler: `UPDATE
app.attendance_log SET status = :st, notes = :nt WHERE employee_id = :eid
AND date = CURRENT_DATE` with `:st = :nt = status_note or None`; the whole
handler runs both statements in one transaction. -/
def setStatus (db : AttendanceDB) (eid : String) (today : Nat)
    (note : String) : AttendanceDB :=
  (ensureToday db eid today).map fun r =>
    if isToday eid today r then
      { r with status := setStatusVal note, notes := setStatusVal note }
    else r

/-- Delete today's row handler SQL: `DELETE FROM app.attendance_log WHERE
employee_id = :eid AND date = CURRENT_DATE`; returns table and rowcount. -/
def deleteToday (db : AttendanceDB) (eid : String) (today : Nat) :
    AttendanceDB × Nat :=
  (db.filter fun r => !(isToday eid today r),
   db.countP (isToday eid today))

/-- UI feedback produced by a button handler (`st.success` / `st.warning` /
`st.info` / `st.error`). -/
inductive Feedback where
  | success
  | warning
  | info
  | errorMsg (msg : String)
deriving DecidableEq

/-- The Check In button: commits the upsert and shows success; the model has
no store failures, so the except-branch is unreachable. -/
def checkInHandler (db : AttendanceDB) (eid : String) (today now : Nat) :
    AttendanceDB × Feedback :=
  (checkIn db eid today now, .success)

/-- The Check Out button: `st.success(...) if res.rowcount else
st.warning("No open check-in for today.")`. -/
def checkOutHandler (db : AttendanceDB) (eid : String) (today now : Nat) :
    AttendanceDB × Feedback :=
  ((checkOut db eid today now).1,
   if (checkOut db eid today now).2 ≠ 0 then .success else .warning)

/-- The Set Status/Note button: commits and shows success. -/
def setStatusHandler (db : AttendanceDB) (eid : String) (today : Nat)
    (note : String) : AttendanceDB × Feedback :=
  (setStatus db eid today note, .success)

/-- The Delete today's row button: `st.success("Deleted.") if res.rowcount
else st.info("No row to delete.")`. -/
def deleteTodayHandler (db : AttendanceDB) (eid : String) (today : Nat) :
    AttendanceDB × Feedback :=
  ((deleteToday db eid today).1,
   if (deleteToday db eid today).2 ≠ 0 then .success else .info)

/-- One attendance-page action, carrying the day and clock reading at which
it runs. -/
inductive AttOp where
  | opCheckIn (eid : String) (today now : Nat)
  | opCheckOut (eid : String) (today now : Nat)
  | opSetStatus (eid : String) (today : Nat) (note : String)
  | opDelete (eid : String) (today : Nat)
deriving DecidableEq

/-- Apply one attendance action to the table. -/
def applyOp (db : AttendanceDB) : AttOp → AttendanceDB
  | .opCheckIn eid today now => checkIn db eid today now
  | .opCheckOut eid today now => (checkOut db eid today now).1
  | .opSetStatus eid today note => setStatus db eid today note
  | .opDelete eid today => (deleteToday db eid today).1

/-- Apply a sequence of attendance actions. -/
def applyOps (db : AttendanceDB) (ops : List AttOp) : AttendanceDB :=
  ops.foldl applyOp db

/-- One row of `app.employees` (`created_at` is supplied by the store's
`now()` default on insert). -/
structure Employee where
  employee_id : String
  first_name : String
  last_name : String
  email : Option String
  department : Option String
  job_title : Option String
  status : String
  hire_date : String
  created_at : Nat
deriving DecidableEq

/-- The message a duplicate `employee_id` insert raises (unique-constraint
violation on the `app.employees` primary key). -/
def dupKeyMsg : String := "duplicate key value violates unique constraint"

/-- `insert_employee`: `INSERT INTO app.employees ... VALUES ...`; the
primary key makes the insert fail when the id is already present. -/
def insert_employee (db : List Employee) (e : Employee) :
    Except String (List Employee) :=
  if db.any (fun x => x.employee_id == e.employee_id) then .error dupKeyMsg
  else .ok (db ++ [e])

/-- Outcome of the Create-employee form submission. -/
inductive CreateResult where
  | created (eid : String)
  | missingRequired
  | createFailed (msg : String)
deriving DecidableEq

/-- The Create-employee form handler: `if not (employee_id and first_name
and last_name): st.error("... are required.")` (Python truthiness: the empty
string is falsy), else build the payload (`or None` fields: empty string
becomes NULL) and call `insert_employee`, catching store errors. -/
def create_emp_handler (db : List Employee)
    (employee_id first_name last_name email department job_title status
      hire_date : String) (now : Nat) : CreateResult × List Employee :=
  if employee_id = "" ∨ first_name = "" ∨ last_name = "" then
    (.missingRequired, db)
  else
    match insert_employee db
      { employee_id := employee_id, first_name := first_name,
        last_name := last_name,
        email := if email = "" then none else some email,
        department := if department = "" then none else some department,
        job_title := if job_title = "" then none else some job_title,
        status := status, hire_date := hire_date, created_at := now } with
    | .ok db' => (.created employee_id, db')
    | .error m => (.createFailed m, db)

/-- SQL `LIKE`/`ILIKE` pattern matching on character lists: `%` matches any
(possibly empty) sequence, `_` matches exactly one character, any other
pattern character matches case-insensitively (`ILIKE`). -/
def likeMatch : List Char → List Char → Bool
  | [], s => s.isEmpty
  | c :: p, s =>
    if c = '%' then s.tails.any fun t => likeMatch p t
    else
      match s with
      | [] => false
      | d :: s' => (c == '_' || c.toLower == d.toLower) && likeMatch p s'

/-- Python `str.strip()`: drop whitespace from both ends. -/
def pyStrip (s : String) : List Char :=
  ((s.toList.dropWhile Char.isWhitespace).reverse.dropWhile
    Char.isWhitespace).reverse

/-- `field ILIKE :q` where `:q = f"%{search.strip()}%"`. -/
def ilikeTerm (search : String) (field : String) : Bool :=
  likeMatch ('%' :: (pyStrip search ++ ['%'])) field.toList

/-- The WHERE clause of `list_employees`: `employee_id ILIKE :q OR
first_name ILIKE :q OR last_name ILIKE :q OR email ILIKE :q` (a NULL email
matches nothing). -/
def matchesSearch (search : String) (e : Employee) : Bool :=
  ilikeTerm search e.employee_id || ilikeTerm search e.first_name ||
    ilikeTerm search e.last_name ||
    (match e.email with
     | some m => ilikeTerm search m
     | none => false)

/-- `ORDER BY created_at DESC`: a comes no later than b. -/
def newerFirst (a b : Employee) : Prop :=
  b.created_at ≤ a.created_at

instance : DecidableRel newerFirst := fun a b =>
  inferInstanceAs (Decidable (b.created_at ≤ a.created_at))

instance : IsTotal Employee newerFirst :=
  ⟨fun a b => by unfold newerFirst; exact Nat.le_total _ _⟩

instance : IsTrans Employee newerFirst :=
  ⟨fun _ _ _ h1 h2 => by unfold newerFirst at *; exact Nat.le_trans h2 h1⟩

/-- `list_employees(search)`: `SELECT ... FROM app.employees {where} ORDER
BY created_at DESC LIMIT 500`, with the WHERE clause present exactly when
`search` is truthy (non-empty). -/
def list_employees (db : List Employee) (search : String) : List Employee :=
  ((if search ≠ "" then db.filter (matchesSearch search) else
      db).insertionSort newerFirst).take 500

/-- The `[auth]` section of `st.secrets`: recognized keys. -/
structure AuthSecrets where
  tokens : Option (List String)
  token : Option String
  password_sha256 : Option String
  password : Option String

/-- The allow-set of URL tokens: `secrets_auth["tokens"]` when present, else
the singleton `secrets_auth["token"]` when present, else empty. -/
def allowedTokens (sa : AuthSecrets) : List String :=
  match sa.tokens with
  | some ts => ts
  | none =>
    match sa.token with
    | some t => [t]
    | none => []

/-- `if token and token in allowed_tokens:` — the query-parameter token is
accepted when it is present, truthy (non-empty) and in the allow-set. -/
def tokenGranted (sa : AuthSecrets) (qtoken : Option String) : Bool :=
  match qtoken with
  | some t => !(t == "") && (allowedTokens sa).contains t
  | none => false

/-- Result of an authentication attempt; a granted session records the
`_method` session key. -/
inductive AuthResult where
  | granted (method : String)
  | denied (msg : String)
deriving DecidableEq

/-- The URL-token path of `require_login`: on match it sets
`_authed`/`_method = "token"`; otherwise it falls through to the password
form with no outcome. -/
def tokenSignIn (sa : AuthSecrets) (qtoken : Option String) :
    Option AuthResult :=
  if tokenGranted sa qtoken then some (.granted "token") else none

/-- The password check of `require_login`, parameterized by the SHA-256 hex
digest function `hash` (`hashlib.sha256(...).hexdigest`): prefer
`auth.password_sha256`, else fall back to raw `auth.password`, else refuse
(`ok = False`).  `hmac.compare_digest` is string equality. -/
def passwordOk (hash : String → String) (sa : AuthSecrets) (pw : String) :
    Bool :=
  match sa.password_sha256 with
  | some hexd => hash pw == hexd
  | none =>
    match sa.password with
    | some p => pw == p
    | none => false

/-- The Sign-in button: grant `method = "password"` on a match, else show
the fixed error `"Invalid password"`. -/
def passwordSignIn (hash : String → String) (sa : AuthSecrets)
    (pw : String) : AuthResult :=
  if passwordOk hash sa pw then .granted "password"
  else .denied "Invalid password"

/-- The spec's token condition, taken verbatim from the claim: the supplied
URL token matches an entry of the configured allow-set. -/
def ClaimTokenMatch (sa : AuthSecrets) (qtoken : Option String) : Prop :=
  ∃ t, qtoken = some t ∧ t ∈ allowedTokens sa

/-- The spec's password condition, taken verbatim from the claim: the
SHA-256 digest of the submission equals `auth.password_sha256` when that is
configured, otherwise raw equality with `auth.password`. -/
def ClaimPasswordMatch (hash : String → String) (sa : AuthSecrets)
    (pw : String) : Prop :=
  match sa.password_sha256 with
  | some hexd => hash pw = hexd
  | none =>
    match sa.password with
    | some p => pw = p
    | none => False

/-- Case-insensitive substring test, following the spec's words for the
search contract: the term occurs verbatim (up to case) inside the field. -/
def ciSubstr (term fld : String) : Bool :=
  (fld.toList.map Char.toLower).tails.any fun t =>
    (term.toList.map Char.toLower).isPrefixOf t

/-- The search condition taken verbatim from the claim: the term matches
case-insensitively as a substring of id, first name, last name, or email
(logical OR). -/
def ClaimSearchMatch (term : String) (e : Employee) : Bool :=
  ciSubstr term e.employee_id || ciSubstr term e.first_name ||
    ciSubstr term e.last_name ||
    (match e.email with
     | some m => ciSubstr term m
     | none => false)

/-! ## Helper lemmas -/

theorem isToday_eq_true_iff {eid : String} {today : Nat}
    {r : AttendanceRow} :
    isToday eid today r = true ↔ r.employee_id = eid ∧ r.date = today := by
  simp [isToday]

theorem rowKey_eq_of_isToday {eid : String} {today : Nat}
    {r : AttendanceRow} (h : isToday eid today r = true) :
    rowKey r = (eid, today) := by
  obtain ⟨h1, h2⟩ := isToday_eq_true_iff.1 h
  simp [rowKey, h1, h2]

theorem findRecord_map (db : AttendanceDB) (f : AttendanceRow → AttendanceRow)
    (eid : String) (today : Nat)
    (hf : ∀ r, isToday eid today (f r) = isToday eid today r) :
    findRecord (db.map f) eid today = (findRecord db eid today).map f := by
  unfold findRecord
  rw [List.find?_map]
  have h : isToday eid today ∘ f = isToday eid today := funext hf
  rw [h]

theorem mem_isToday_unique {db : AttendanceDB} {eid : String} {today : Nat}
    {r r' : AttendanceRow} (h : UniquePerDay db) (hr : r ∈ db)
    (hr' : r' ∈ db) (h1 : isToday eid today r = true)
    (h2 : isToday eid today r' = true) : r = r' :=
  List.inj_on_of_nodup_map h hr hr'
    (by rw [rowKey_eq_of_isToday h1, rowKey_eq_of_isToday h2])

theorem uniquePerDay_map {db : AttendanceDB}
    {f : AttendanceRow → AttendanceRow}
    (hf : ∀ r, rowKey (f r) = rowKey r) (h : UniquePerDay db) :
    UniquePerDay (db.map f) := by
  unfold UniquePerDay at *
  rw [List.map_map]
  have hfk : rowKey ∘ f = rowKey := funext hf
  rw [hfk]
  exact h

theorem uniquePerDay_append_one {db : AttendanceDB} (h : UniquePerDay db)
    (x : AttendanceRow)
    (hx : db.any (isToday x.employee_id x.date) = false) :
    UniquePerDay (db ++ [x]) := by
  unfold UniquePerDay
  rw [List.map_append, List.nodup_append]
  refine ⟨h, List.nodup_singleton _, ?_⟩
  intro k hk hk'
  simp only [List.map_cons, List.map_nil, List.mem_singleton] at hk'
  obtain ⟨r, hrmem, hrk⟩ := List.mem_map.1 hk
  subst hk'
  exact List.any_eq_false.1 hx r hrmem
    (isToday_eq_true_iff.2
      ⟨congrArg Prod.fst (hrk.trans rfl), congrArg Prod.snd (hrk.trans rfl)⟩)

theorem checkOut_fst (db : AttendanceDB) (eid : String) (today now : Nat) :
    (checkOut db eid today now).1 =
      db.map fun r =>
        if checkOutHit eid today r then { r with check_out_time := some now }
        else r := rfl

theorem checkOut_snd (db : AttendanceDB) (eid : String) (today now : Nat) :
    (checkOut db eid today now).2 = db.countP (checkOutHit eid today) := rfl

theorem deleteToday_fst (db : AttendanceDB) (eid : String) (today : Nat) :
    (deleteToday db eid today).1 =
      db.filter fun r => !(isToday eid today r) := rfl

theorem deleteToday_snd (db : AttendanceDB) (eid : String) (today : Nat) :
    (deleteToday db eid today).2 = db.countP (isToday eid today) := rfl

theorem checkOut_fst_no_hit {db : AttendanceDB} {eid : String}
    {today : Nat} (now : Nat)
    (h : ∀ r ∈ db, checkOutHit eid today r = false) :
    (checkOut db eid today now).1 = db := by
  rw [checkOut_fst]
  have hid : ∀ r ∈ db,
      (if checkOutHit eid today r then { r with check_out_time := some now }
       else r) = id r := by
    intro r hr
    simp [h r hr]
  rw [List.map_congr_left hid, List.map_id]

theorem checkOut_snd_no_hit {db : AttendanceDB} {eid : String}
    {today : Nat} (now : Nat)
    (h : ∀ r ∈ db, checkOutHit eid today r = false) :
    (checkOut db eid today now).2 = 0 := by
  rw [checkOut_snd]
  exact List.countP_eq_zero.2 fun r hr => by simp [h r hr]

theorem checkOut_closes (db : AttendanceDB) (eid : String)
    (today now : Nat) :
    ∀ r' ∈ (checkOut db eid today now).1,
      checkOutHit eid today r' = false := by
  intro r' hr'
  rw [checkOut_fst] at hr'
  obtain ⟨r0, h0, rfl⟩ := List.mem_map.1 hr'
  by_cases hh : checkOutHit eid today r0 = true
  · rw [if_pos hh]
    simp [checkOutHit]
  · rw [if_neg hh]
    exact Bool.not_eq_true _ ▸ hh

theorem checkIn_findRecord {db : AttendanceDB} {eid : String}
    {today now : Nat} {r : AttendanceRow}
    (hr : findRecord db eid today = some r) :
    findRecord (checkIn db eid today now) eid today =
      some { r with check_in_time := some (r.check_in_time.getD now) } := by
  have hmem := List.mem_of_find?_eq_some hr
  have hp := List.find?_some hr
  have hany : db.any (isToday eid today) = true :=
    List.any_eq_true.2 ⟨r, hmem, hp⟩
  unfold checkIn
  rw [if_pos hany,
    findRecord_map db _ eid today (fun r' => by split <;> rfl), hr]
  simp [hp]

theorem ensureToday_findRecord_some {db : AttendanceDB} {eid : String}
    {today : Nat} {r : AttendanceRow}
    (hr : findRecord db eid today = some r) :
    findRecord (ensureToday db eid today) eid today = some r := by
  have hany : db.any (isToday eid today) = true :=
    List.any_eq_true.2 ⟨r, List.mem_of_find?_eq_some hr, List.find?_some hr⟩
  unfold ensureToday
  rw [if_pos hany]
  exact hr

theorem isToday_blankRow (eid : String) (today : Nat) :
    isToday eid today (blankRow eid today) = true := by
  simp [isToday, blankRow]

theorem ensureToday_findRecord_none {db : AttendanceDB} {eid : String}
    {today : Nat} (hr : findRecord db eid today = none) :
    findRecord (ensureToday db eid today) eid today =
      some (blankRow eid today) := by
  have hany : db.any (isToday eid today) = false := by
    rw [List.any_eq_false]
    intro r hrm
    exact List.find?_eq_none.1 hr r hrm
  unfold ensureToday
  rw [if_neg (by simp [hany])]
  have hr' : List.find? (isToday eid today) db = none := hr
  unfold findRecord
  rw [List.find?_append, hr']
  simp [isToday_blankRow]

theorem checkIn_uniquePerDay (db : AttendanceDB) (eid : String)
    (today now : Nat) (h : UniquePerDay db) :
    UniquePerDay (checkIn db eid today now) := by
  unfold checkIn
  by_cases hany : db.any (isToday eid today) = true
  · rw [if_pos hany]
    exact uniquePerDay_map (fun r => by split <;> rfl) h
  · rw [if_neg hany]
    exact uniquePerDay_append_one h _ (by simpa using hany)

theorem checkOut_uniquePerDay (db : AttendanceDB) (eid : String)
    (today now : Nat) (h : UniquePerDay db) :
    UniquePerDay (checkOut db eid today now).1 := by
  rw [checkOut_fst]
  exact uniquePerDay_map (fun r => by split <;> rfl) h

theorem setStatus_uniquePerDay (db : AttendanceDB) (eid : String)
    (today : Nat) (note : String) (h : UniquePerDay db) :
    UniquePerDay (setStatus db eid today note) := by
  unfold setStatus
  refine uniquePerDay_map (fun r => by split <;> rfl) ?_
  unfold ensureToday
  by_cases hany : db.any (isToday eid today) = true
  · rw [if_pos hany]; exact h
  · rw [if_neg hany]
    exact uniquePerDay_append_one h _ (by simpa using hany)

theorem deleteToday_uniquePerDay (db : AttendanceDB) (eid : String)
    (today : Nat) (h : UniquePerDay db) :
    UniquePerDay (deleteToday db eid today).1 := by
  rw [deleteToday_fst]
  exact List.Nodup.sublist
    (List.Sublist.map rowKey (List.filter_sublist db)) h

theorem applyOp_uniquePerDay (db : AttendanceDB) (op : AttOp)
    (h : UniquePerDay db) : UniquePerDay (applyOp db op) := by
  cases op with
  | opCheckIn eid today now => exact checkIn_uniquePerDay db eid today now h
  | opCheckOut eid today now => exact checkOut_uniquePerDay db eid today now h
  | opSetStatus eid today note =>
    exact setStatus_uniquePerDay db eid today note h
  | opDelete eid today => exact deleteToday_uniquePerDay db eid today h

/-! ## Claim theorems -/

/-- Claim C2: for every employee and day, at most one attendance record
exists for that pair — the `UniquePerDay` invariant (the UNIQUE constraint
of the DDL) is preserved by every sequence of checkIn, checkOut, setStatus
and deleteToday operations, however often checkIn repeats a pair. -/
theorem uniquePerDay_invariant (ops : List AttOp) (db : AttendanceDB)
    (h : UniquePerDay db) : UniquePerDay (applyOps db ops) := by
  induction ops generalizing db with
  | nil => exact h
  | cons op ops ih => exact ih (applyOp db op) (applyOp_uniquePerDay db op h)

/-- Witness for C2: from the empty table, a sequence that checks the same
(employee, day) in twice, sets a status, checks out and deletes another
employee's row keeps the invariant. -/
theorem uniquePerDay_invariant_witness :
    UniquePerDay (applyOps [] [.opCheckIn "E1" 0 3, .opCheckIn "E1" 0 7,
      .opSetStatus "E1" 0 "Sick", .opCheckOut "E1" 0 9,
      .opDelete "E2" 0]) :=
  uniquePerDay_invariant [.opCheckIn "E1" 0 3, .opCheckIn "E1" 0 7,
      .opSetStatus "E1" 0 "Sick", .opCheckOut "E1" 0 9, .opDelete "E2" 0]
    [] (by decide)

/-- Claim C3: checkIn is idempotent on the check-in timestamp — when the
(employee_id, today) record already holds a check-in time, a later checkIn
leaves the record (in particular that timestamp) unchanged, and the handler
still reports success. -/
theorem checkIn_idempotent (db : AttendanceDB) (eid : String)
    (today now t : Nat) (r : AttendanceRow)
    (hr : findRecord db eid today = some r)
    (hin : r.check_in_time = some t) :
    findRecord (checkIn db eid today now) eid today = some r ∧
      (checkInHandler db eid today now).2 = .success := by
  refine ⟨?_, rfl⟩
  rw [checkIn_findRecord hr, hin]
  cases r
  simp_all

/-- Witness for C3: a record checked in at 3 is untouched by a second
check-in at 9, which still reports success. -/
theorem checkIn_idempotent_witness :
    findRecord
        (checkIn [⟨"E1", 0, some 3, none, some "Present", none⟩] "E1" 0 9)
        "E1" 0 =
      some ⟨"E1", 0, some 3, none, some "Present", none⟩ ∧
    (checkInHandler [⟨"E1", 0, some 3, none, some "Present", none⟩]
        "E1" 0 9).2 = .success :=
  checkIn_idempotent [⟨"E1", 0, some 3, none, some "Present", none⟩]
    "E1" 0 9 3 ⟨"E1", 0, some 3, none, some "Present", none⟩ (by decide) rfl

/-- Claim C9: when the (employee_id, today) record exists, checkIn leaves
its status, notes and check-out time unchanged; the conflict branch touches
only check_in_time, and only when that was null. -/
theorem checkIn_conflict_frame (db : AttendanceDB) (eid : String)
    (today now : Nat) (r : AttendanceRow)
    (hr : findRecord db eid today = some r) :
    ∃ r', findRecord (checkIn db eid today now) eid today = some r' ∧
      r'.status = r.status ∧ r'.notes = r.notes ∧
      r'.check_out_time = r.check_out_time ∧
      (r.check_in_time = none → r'.check_in_time = some now) ∧
      (∀ t, r.check_in_time = some t → r'.check_in_time = some t) := by
  refine ⟨_, checkIn_findRecord hr, rfl, rfl, rfl, ?_, ?_⟩
  · intro h
    rw [show r.check_in_time.getD now = now from by rw [h]; rfl]
  · intro t h
    rw [show r.check_in_time.getD now = t from by rw [h]; rfl]

/-- Witness for C9: checking in over a record created by Set Status (null
check-in, non-null status/notes) fills only the check-in time. -/
theorem checkIn_conflict_frame_witness :
    ∃ r', findRecord
        (checkIn [⟨"E1", 0, none, some 4, some "Sick", some "Sick"⟩]
          "E1" 0 9) "E1" 0 = some r' ∧
      r'.status = some "Sick" ∧ r'.notes = some "Sick" ∧
      r'.check_out_time = some 4 ∧ r'.check_in_time = some 9 := by
  obtain ⟨r', h1, h2, h3, h4, h5, _⟩ :=
    checkIn_conflict_frame [⟨"E1", 0, none, some 4, some "Sick", some "Sick"⟩]
      "E1" 0 9 ⟨"E1", 0, none, some 4, some "Sick", some "Sick"⟩ (by decide)
  exact ⟨r', h1, h2, h3, h4, h5 rfl⟩

/-- Counterexample to C1 as stated: a today-record created by Set Status has
a null check-in and a null check-out; the claim then demands that checkOut
leave the check-out time null, but the UPDATE's WHERE clause never tests
check_in_time, so the check-out time is set anyway. -/
theorem checkOut_claim_cex :
    findRecord [⟨"E1", 0, none, none, some "Sick", some "Sick"⟩] "E1" 0 =
      some ⟨"E1", 0, none, none, some "Sick", some "Sick"⟩ ∧
    (⟨"E1", 0, none, none, some "Sick", some "Sick"⟩ :
        AttendanceRow).check_in_time = none ∧
    findRecord
        (checkOut [⟨"E1", 0, none, none, some "Sick", some "Sick"⟩]
          "E1" 0 5).1 "E1" 0 =
      some ⟨"E1", 0, none, some 5, some "Sick", some "Sick"⟩ := by
  refine ⟨by decide, rfl, by decide⟩

/-- Claim C1 as amended: checkOut sets the check-out timestamp exactly when
a record exists for (employee_id, today) whose check-out time is still
unset — a check-in need not exist; in every other case (no record, or
check-out already set) the table is unchanged, so the check-out time keeps
its previous value. -/
theorem checkOut_conditional (db : AttendanceDB) (eid : String)
    (today now : Nat) (h : UniquePerDay db) :
    (∀ r, findRecord db eid today = some r → r.check_out_time = none →
        findRecord (checkOut db eid today now).1 eid today =
          some { r with check_out_time := some now }) ∧
    (findRecord db eid today = none → (checkOut db eid today now).1 = db) ∧
    (∀ r, findRecord db eid today = some r → r.check_out_time ≠ none →
        (checkOut db eid today now).1 = db) := by
  refine ⟨?_, ?_, ?_⟩
  · intro r hr hco
    have hp := List.find?_some hr
    rw [checkOut_fst,
      findRecord_map db _ eid today (fun r' => by split <;> rfl), hr]
    have hhit : checkOutHit eid today r = true := by
      simp [checkOutHit, hp, hco]
    simp [hhit]
  · intro hr
    refine checkOut_fst_no_hit now ?_
    intro r hrm
    have hnot := List.find?_eq_none.1 hr r hrm
    have ht : isToday eid today r = false := by
      cases hh : isToday eid today r
      · rfl
      · exact absurd hh hnot
    simp [checkOutHit, ht]
  · intro r hr hco
    refine checkOut_fst_no_hit now ?_
    intro r' hrm'
    by_cases ht : isToday eid today r' = true
    · have heq : r' = r :=
        mem_isToday_unique h hrm' (List.mem_of_find?_eq_some hr) ht
          (List.find?_some hr)
      subst heq
      obtain ⟨v, hv⟩ := Option.ne_none_iff_exists'.1 hco
      simp [checkOutHit, hv]
    · have ht' : isToday eid today r' = false := by
        cases hh : isToday eid today r'
        · rfl
        · exact absurd hh ht
      simp [checkOutHit, ht']

/-- Witness for amended C1: an open record checked in at 1 gets check-out 7;
a table whose only record is already closed is left unchanged. -/
theorem checkOut_conditional_witness :
    findRecord
        (checkOut [⟨"E1", 0, some 1, none, some "Present", none⟩]
          "E1" 0 7).1 "E1" 0 =
      some ⟨"E1", 0, some 1, some 7, some "Present", none⟩ ∧
    (checkOut [⟨"E1", 0, some 1, some 7, some "Present", none⟩]
        "E1" 0 9).1 =
      [⟨"E1", 0, some 1, some 7, some "Present", none⟩] := by
  constructor
  · exact (checkOut_conditional
      [⟨"E1", 0, some 1, none, some "Present", none⟩] "E1" 0 7
      (by decide)).1 ⟨"E1", 0, some 1, none, some "Present", none⟩
      (by decide) rfl
  · exact (checkOut_conditional
      [⟨"E1", 0, some 1, some 7, some "Present", none⟩] "E1" 0 9
      (by decide)).2.2 ⟨"E1", 0, some 1, some 7, some "Present", none⟩
      (by decide) (by decide)

/-- Claim C4: setStatus first ensures a today-record exists (insert-if-
absent, no-op on conflict) and then overwrites both status and notes with
`status_note or None` — the empty string clears both to null, a non-empty
string sets both to itself — while leaving the check-in and check-out
times of a pre-existing record untouched. -/
theorem setStatus_spec (db : AttendanceDB) (eid : String) (today : Nat)
    (note : String) :
    ∃ r', findRecord (setStatus db eid today note) eid today = some r' ∧
      r'.status = setStatusVal note ∧ r'.notes = setStatusVal note ∧
      (∀ r, findRecord db eid today = some r →
        r'.check_in_time = r.check_in_time ∧
          r'.check_out_time = r.check_out_time) ∧
      (findRecord db eid today = none →
        r'.check_in_time = none ∧ r'.check_out_time = none) := by
  unfold setStatus
  cases hfr : findRecord db eid today with
  | some r =>
    have hp := List.find?_some hfr
    rw [findRecord_map _ _ eid today (fun r' => by split <;> rfl),
      ensureToday_findRecord_some hfr]
    refine ⟨_, rfl, ?_, ?_, ?_, ?_⟩
    · simp [hp]
    · simp [hp]
    · intro r0 hr0
      injection hr0 with hh
      subst hh
      constructor <;> simp [hp]
    · intro hnone
      exact Option.noConfusion hnone
  | none =>
    rw [findRecord_map _ _ eid today (fun r' => by split <;> rfl),
      ensureToday_findRecord_none hfr]
    refine ⟨_, rfl, ?_, ?_, ?_, ?_⟩
    · simp [isToday_blankRow]
    · simp [isToday_blankRow]
    · intro r0 hr0
      exact Option.noConfusion hr0
    · intro _
      constructor <;> simp [isToday, blankRow]

/-- Witness for C4: `setStatus "Sick"` on an empty table creates the record
with both fields "Sick"; `setStatus ""` on a checked-in record clears both
fields to null and keeps the check-in time. -/
theorem setStatus_spec_witness :
    (∃ r', findRecord (setStatus [] "E1" 0 "Sick") "E1" 0 = some r' ∧
      r'.status = some "Sick" ∧ r'.notes = some "Sick" ∧
      r'.check_in_time = none) ∧
    (∃ r', findRecord
          (setStatus [⟨"E1", 0, some 3, none, some "Sick", some "Sick"⟩]
            "E1" 0 "") "E1" 0 = some r' ∧
      r'.status = none ∧ r'.notes = none ∧ r'.check_in_time = some 3) := by
  constructor
  · obtain ⟨r', h1, h2, h3, _, h5⟩ := setStatus_spec [] "E1" 0 "Sick"
    refine ⟨r', h1, ?_, ?_, (h5 rfl).1⟩
    · rw [h2]; rfl
    · rw [h3]; rfl
  · obtain ⟨r', h1, h2, h3, h4, _⟩ :=
      setStatus_spec [⟨"E1", 0, some 3, none, some "Sick", some "Sick"⟩]
        "E1" 0 ""
    refine ⟨r', h1, ?_, ?_, ?_⟩
    · rw [h2]; rfl
    · rw [h3]; rfl
    · exact (h4 ⟨"E1", 0, some 3, none, some "Sick", some "Sick"⟩
        (by decide)).1

/-- Claim C5: a zero-rows-affected checkOut leaves the table unchanged and
reports the warning outcome, a zero-rows deleteToday leaves the table
unchanged and reports the info outcome, neither handler ever reports an
error, and a second checkOut on the same day — whatever the first one did —
is a zero-rows no-op reported as a warning. -/
theorem zero_rows_outcomes (db : AttendanceDB) (eid : String)
    (today now now2 : Nat) :
    ((checkOut db eid today now).2 = 0 →
        checkOutHandler db eid today now = (db, .warning)) ∧
    ((deleteToday db eid today).2 = 0 →
        deleteTodayHandler db eid today = (db, .info)) ∧
    (∀ m, (checkOutHandler db eid today now).2 ≠ .errorMsg m) ∧
    (∀ m, (deleteTodayHandler db eid today).2 ≠ .errorMsg m) ∧
    checkOutHandler (checkOutHandler db eid today now).1 eid today now2 =
      ((checkOutHandler db eid today now).1, .warning) := by
  refine ⟨?_, ?_, ?_, ?_, ?_⟩
  · intro hz
    have hno : ∀ r ∈ db, checkOutHit eid today r = false := by
      intro r hrm
      have := List.countP_eq_zero.1 (checkOut_snd db eid today now ▸ hz) r hrm
      cases hh : checkOutHit eid today r
      · rfl
      · exact absurd hh this
    unfold checkOutHandler
    rw [checkOut_fst_no_hit now hno, hz]
    rfl
  · intro hz
    have hno : ∀ r ∈ db, isToday eid today r = false := by
      intro r hrm
      have := List.countP_eq_zero.1
        (deleteToday_snd db eid today ▸ hz) r hrm
      cases hh : isToday eid today r
      · rfl
      · exact absurd hh this
    unfold deleteTodayHandler
    rw [deleteToday_fst, List.filter_eq_self.2 (fun r hrm => by
      simp [hno r hrm]), hz]
    rfl
  · intro m
    unfold checkOutHandler
    split <;> simp
  · intro m
    unfold deleteTodayHandler
    split <;> simp
  · have hclosed : ∀ r ∈ (checkOutHandler db eid today now).1,
        checkOutHit eid today r = false := by
      intro r hrm
      exact checkOut_closes db eid today now r hrm
    have h1 : (checkOut (checkOutHandler db eid today now).1 eid today
        now2).1 = (checkOutHandler db eid today now).1 :=
      checkOut_fst_no_hit now2 hclosed
    have h2 : (checkOut (checkOutHandler db eid today now).1 eid today
        now2).2 = 0 :=
      checkOut_snd_no_hit now2 hclosed
    show ((checkOut (checkOutHandler db eid today now).1 eid today now2).1,
        if (checkOut (checkOutHandler db eid today now).1 eid today
            now2).2 ≠ 0 then Feedback.success else Feedback.warning) = _
    rw [h1, h2]
    simp

/-- Witness for C5: on a table whose only record for (E1, day 0) is already
checked out, checkOut warns, and on the empty table deleteToday reports
nothing to delete; a checkOut right after a successful one warns. -/
theorem zero_rows_outcomes_witness :
    checkOutHandler [⟨"E1", 0, some 1, some 2, some "Present", none⟩]
        "E1" 0 5 =
      ([⟨"E1", 0, some 1, some 2, some "Present", none⟩], .warning) ∧
    deleteTodayHandler ([] : AttendanceDB) "E1" 0 = ([], .info) ∧
    checkOutHandler
        (checkOutHandler [⟨"E1", 0, some 1, none, some "Present", none⟩]
          "E1" 0 5).1 "E1" 0 6 =
      ((checkOutHandler [⟨"E1", 0, some 1, none, some "Present", none⟩]
          "E1" 0 5).1, .warning) :=
  ⟨(zero_rows_outcomes [⟨"E1", 0, some 1, some 2, some "Present", none⟩]
      "E1" 0 5 5).1 (by decide),
   (zero_rows_outcomes ([] : AttendanceDB) "E1" 0 5 5).2.1 (by decide),
   (zero_rows_outcomes [⟨"E1", 0, some 1, none, some "Present", none⟩]
      "E1" 0 5 6).2.2.2.2⟩

/-- Counterexample to C6 as stated: configure the allow-set as the single
token `""` and supply `?token=` (the empty string).  The supplied token then
matches an entry of the configured allow-set, yet `if token and token in
allowed_tokens` rejects it because the empty string is falsy in Python, so
no session is granted. -/
theorem token_claim_cex :
    ClaimTokenMatch ⟨none, some "", none, none⟩ (some "") ∧
      tokenSignIn ⟨none, some "", none, none⟩ (some "") = none :=
  ⟨⟨"", rfl, by simp [allowedTokens]⟩, rfl⟩

/-- Claim C6 as amended: a session with method "token" is granted exactly
when the supplied URL token is non-empty and matches an entry of the
configured allow-set; a session with method "password" is granted exactly
when the submission matches the configured secret (digest equality against
auth.password_sha256 when configured, otherwise raw equality with
auth.password); on mismatch the password path reports the one fixed failure
message, revealing nothing about which check failed. -/
theorem require_login_spec (hash : String → String) (sa : AuthSecrets)
    (qtoken : Option String) (pw : String) :
    (tokenSignIn sa qtoken = some (.granted "token") ↔
      ∃ t, qtoken = some t ∧ t ≠ "" ∧ t ∈ allowedTokens sa) ∧
    (tokenSignIn sa qtoken = none ∨
      tokenSignIn sa qtoken = some (.granted "token")) ∧
    (passwordSignIn hash sa pw = .granted "password" ↔
      ClaimPasswordMatch hash sa pw) ∧
    (¬ ClaimPasswordMatch hash sa pw →
      passwordSignIn hash sa pw = .denied "Invalid password") := by
  refine ⟨?_, ?_, ?_, ?_⟩
  · unfold tokenSignIn tokenGranted
    cases qtoken with
    | none => simp
    | some t =>
      by_cases ht : t = ""
      · subst ht
        simp
      · simp [ht]
  · unfold tokenSignIn
    split
    · exact Or.inr rfl
    · exact Or.inl rfl
  · unfold passwordSignIn passwordOk ClaimPasswordMatch
    cases sa.password_sha256 with
    | some hexd => by_cases hh : hash pw = hexd <;> simp [hh]
    | none =>
      cases sa.password with
      | some p => by_cases hh : pw = p <;> simp [hh]
      | none => simp
  · intro hnot
    unfold passwordSignIn
    rw [if_neg ?_]
    intro hok
    apply hnot
    unfold passwordOk at hok
    unfold ClaimPasswordMatch
    cases hs : sa.password_sha256 with
    | some hexd => rw [hs] at hok; simpa using hok
    | none =>
      rw [hs] at hok
      cases hp : sa.password with
      | some p => rw [hp] at hok; simpa using hok
      | none => rw [hp] at hok; simp at hok

/-- Witness for amended C6: an allow-listed non-empty token grants a
token-method session; a wrong password against a configured raw password is
denied with the fixed message. -/
theorem require_login_spec_witness :
    tokenSignIn ⟨some ["tok1", "tok2"], none, none, none⟩ (some "tok2") =
      some (.granted "token") ∧
    passwordSignIn (fun s => s) ⟨none, none, none, some "secret"⟩ "wrong" =
      .denied "Invalid password" := by
  constructor
  · exact (require_login_spec (fun s => s)
      ⟨some ["tok1", "tok2"], none, none, none⟩ (some "tok2") "x").1.mpr
      ⟨"tok2", rfl, by decide, by simp [allowedTokens]⟩
  · exact (require_login_spec (fun s => s) ⟨none, none, none, some "secret"⟩
      none "wrong").2.2.2
      (by intro hm; simp [ClaimPasswordMatch] at hm)

/-- Claim C10: when the secrets configure neither auth.password_sha256 nor
auth.password, the password path fails closed — every submission is refused
with the fixed failure message and no session is granted. -/
theorem password_fails_closed (hash : String → String) (sa : AuthSecrets)
    (pw : String) (h1 : sa.password_sha256 = none)
    (h2 : sa.password = none) :
    passwordSignIn hash sa pw = .denied "Invalid password" ∧
      ∀ m, passwordSignIn hash sa pw ≠ .granted m := by
  have hok : passwordOk hash sa pw = false := by
    unfold passwordOk
    rw [h1, h2]
  constructor
  · unfold passwordSignIn
    rw [hok]
    rfl
  · intro m
    unfold passwordSignIn
    rw [hok]
    simp


/-- Witness for C10: with an empty auth section, the submission "anything"
is refused. -/
theorem password_fails_closed_witness :
    passwordSignIn (fun s => s) ⟨none, none, none, none⟩ "anything" =
      .denied "Invalid password" :=
  (password_fails_closed (fun s => s) ⟨none, none, none, none⟩ "anything"
    rfl rfl).1

/-- Counterexample to C7 as stated: submitting the form with a missing first
name yields the required-fields validation error, which is not the
constraint-violation outcome the insert path produces, and the store is
left unwritten. -/
theorem create_claim_cex :
    create_emp_handler [] "E1" "" "Lee" "" "" "" "active" "2020-01-01" 0 =
      (.missingRequired, []) ∧
    (CreateResult.missingRequired ≠ .createFailed dupKeyMsg) :=
  ⟨by decide, by decide⟩

/-- Claim C7 as amended: create fails with the required-fields validation
error — issued before the insert, so the store is unchanged — when any of
employee id, first name or last name is missing, fails with the duplicate-
key ConstraintViolation (store unchanged) when the id already exists, and
otherwise creates the employee. -/
theorem create_emp_spec (db : List Employee)
    (eid fn ln em dep jt stt hd : String) (now : Nat) :
    ((eid = "" ∨ fn = "" ∨ ln = "") →
        create_emp_handler db eid fn ln em dep jt stt hd now =
          (.missingRequired, db)) ∧
    (eid ≠ "" → fn ≠ "" → ln ≠ "" → (∃ x ∈ db, x.employee_id = eid) →
        create_emp_handler db eid fn ln em dep jt stt hd now =
          (.createFailed dupKeyMsg, db)) ∧
    (eid ≠ "" → fn ≠ "" → ln ≠ "" → (∀ x ∈ db, x.employee_id ≠ eid) →
        (create_emp_handler db eid fn ln em dep jt stt hd now).1 =
          .created eid) := by
  refine ⟨?_, ?_, ?_⟩
  · intro h
    unfold create_emp_handler
    rw [if_pos h]
  · intro h1 h2 h3 hdup
    unfold create_emp_handler
    rw [if_neg (by simp [h1, h2, h3])]
    have hany : db.any (fun x => x.employee_id == eid) = true := by
      obtain ⟨x, hx, hxe⟩ := hdup
      exact List.any_eq_true.2 ⟨x, hx, by simp [hxe]⟩
    unfold insert_employee
    rw [if_pos hany]
  · intro h1 h2 h3 hfresh
    unfold create_emp_handler
    rw [if_neg (by simp [h1, h2, h3])]
    have hany : db.any (fun x => x.employee_id == eid) = false := by
      rw [List.any_eq_false]
      intro x hx
      simp [hfresh x hx]
    unfold insert_employee
    rw [if_neg (by simp [hany])]

/-- Witness for amended C7: a blank employee id is rejected by validation
with no write; re-creating an existing id fails with the duplicate-key
message and no write; a fresh id is created. -/
theorem create_emp_spec_witness :
    create_emp_handler [] "" "Ana" "Lee" "" "" "" "active" "2024-01-01" 0 =
      (.missingRequired, []) ∧
    create_emp_handler
        [⟨"E1", "Ana", "Lee", none, none, none, "active", "2024-01-01", 0⟩]
        "E1" "Bob" "Roe" "" "" "" "active" "2024-01-02" 1 =
      (.createFailed dupKeyMsg,
        [⟨"E1", "Ana", "Lee", none, none, none, "active", "2024-01-01", 0⟩]) ∧
    (create_emp_handler [] "E2" "Ana" "Lee" "" "" "" "active" "2024-01-01"
        0).1 = .created "E2" := by
  refine ⟨?_, ?_, ?_⟩
  · exact (create_emp_spec [] "" "Ana" "Lee" "" "" "" "active" "2024-01-01"
      0).1 (Or.inl rfl)
  · exact (create_emp_spec
      [⟨"E1", "Ana", "Lee", none, none, none, "active", "2024-01-01", 0⟩]
      "E1" "Bob" "Roe" "" "" "" "active" "2024-01-02" 1).2.1
      (by decide) (by decide) (by decide)
      ⟨⟨"E1", "Ana", "Lee", none, none, none, "active", "2024-01-01", 0⟩,
        by simp, rfl⟩
  · exact (create_emp_spec [] "E2" "Ana" "Lee" "" "" "" "active"
      "2024-01-01" 0).2.2 (by decide) (by decide) (by decide)
      (fun x hx => absurd hx (List.not_mem_nil x))

/-- Counterexample to C8 as stated: the term " a_c " does not occur as a
(case-insensitive) substring of any field of an employee whose first name
is "abc", yet `list_employees` returns that employee, because the handler
strips the term and interpolates it into an ILIKE pattern, where `_`
matches any single character. -/
theorem search_claim_cex :
    (⟨"E9", "abc", "zz", none, none, none, "active", "2020-01-01", 1⟩ :
        Employee) ∈
      list_employees
        [⟨"E9", "abc", "zz", none, none, none, "active", "2020-01-01", 1⟩]
        " a_c " ∧
    ClaimSearchMatch " a_c "
        ⟨"E9", "abc", "zz", none, none, none, "active", "2020-01-01", 1⟩ =
      false := by
  constructor
  · decide
  · decide

/-- Claim C8 as amended: with a non-empty search term, `list_employees`
returns exactly the employees one of whose id, first name, last name or
email matches the whitespace-stripped term as a SQL ILIKE fragment — i.e.
case-insensitive containment in which `%` and `_` act as wildcards —
(sound always, complete whenever the matches fit the cap); with no term it
returns all employees (up to the cap); the result is ordered
newest-created first and holds at most 500 rows. -/
theorem list_employees_spec (db : List Employee) (s : String) :
    (∀ e ∈ list_employees db s, s ≠ "" → matchesSearch s e = true) ∧
    (s ≠ "" → ∀ e ∈ db, matchesSearch s e = true →
      (db.filter (matchesSearch s)).length ≤ 500 →
      e ∈ list_employees db s) ∧
    (s = "" → db.length ≤ 500 → ∀ e, e ∈ list_employees db s ↔ e ∈ db) ∧
    List.Sorted newerFirst (list_employees db s) ∧
    (list_employees db s).length ≤ 500 := by
  refine ⟨?_, ?_, ?_, ?_, ?_⟩
  · intro e he hs
    unfold list_employees at he
    rw [if_pos hs] at he
    have he2 := List.take_subset _ _ he
    rw [List.mem_insertionSort] at he2
    exact (List.mem_filter.1 he2).2
  · intro hs e he hm hlen
    unfold list_employees
    rw [if_pos hs]
    have hperm :=
      List.perm_insertionSort newerFirst (db.filter (matchesSearch s))
    rw [List.take_of_length_le (by rw [hperm.length_eq]; exact hlen)]
    rw [List.mem_insertionSort]
    exact List.mem_filter.2 ⟨he, hm⟩
  · intro hs hlen e
    unfold list_employees
    rw [if_neg (by simp [hs])]
    have hperm := List.perm_insertionSort newerFirst db
    rw [List.take_of_length_le (by rw [hperm.length_eq]; exact hlen)]
    exact hperm.mem_iff
  · unfold list_employees
    exact List.Pairwise.sublist (List.take_sublist _ _)
      (List.sorted_insertionSort newerFirst _)
  · unfold list_employees
    rw [List.length_take]
    exact Nat.min_le_left _ _

/-- Witness for amended C8: the term "mar" returns the employee whose first
name is "Mary" from a two-employee table, within the 500-row cap. -/
theorem list_employees_spec_witness :
    (⟨"E1", "Mary", "Ann", some "ma@x.co", none, none, "active",
        "2024-01-01", 3⟩ : Employee) ∈
      list_employees
        [⟨"E1", "Mary", "Ann", some "ma@x.co", none, none, "active",
            "2024-01-01", 3⟩,
          ⟨"E2", "Bob", "Roe", none, none, none, "active",
            "2024-01-02", 5⟩] "mar" ∧
    (list_employees
        [⟨"E1", "Mary", "Ann", some "ma@x.co", none, none, "active",
            "2024-01-01", 3⟩,
          ⟨"E2", "Bob", "Roe", none, none, none, "active",
            "2024-01-02", 5⟩] "mar").length ≤ 500 := by
  constructor
  · exact (list_employees_spec
      [⟨"E1", "Mary", "Ann", some "ma@x.co", none, none, "active",
          "2024-01-01", 3⟩,
        ⟨"E2", "Bob", "Roe", none, none, none, "active",
          "2024-01-02", 5⟩] "mar").2.1 (by decide) _ (by decide)
      (by decide) (by decide)
  · exact (list_employees_spec
      [⟨"E1", "Mary", "Ann", some "ma@x.co", none, none, "active",
          "2024-01-01", 3⟩,
        ⟨"E2", "Bob", "Roe", none, none, none, "active",
          "2024-01-02", 5⟩] "mar").2.2.2.2
